import Mathlib

/-!
# SafeArray and SafePointer

A shallow embedding of `SafeArray.h` and `SafePointer.h`.

Modelling conventions.

* A C++ `int` is an `Int` together with the 32-bit range `INT_MIN .. INT_MAX`.
  The increments, decrements and compound assignments of the `int` members
  `m_forth` and `m_back` store `wrap_int` of the exact result: the exact result
  when it is representable, and its two's complement wrap when it is not, which
  is what the compiled code leaves in the member (the language itself leaves
  signed overflow undefined). Statements about exact sums and differences carry
  the hypothesis `in_int` that the result is representable.
* A `T*` is an `Int`: an address counted in elements of `T`, so that
  `p + n` and `p - q` are integer addition and subtraction.
* The free store is a `Heap T`, a map from addresses to elements. The block
  returned by `new T[length]` is named by its first address, which the
  constructor of `SafeArray` takes as a parameter; its cells hold whatever
  the heap holds there, since the source does not initialise them.
* A thrown exception is the `error` case of `Except Exn`.
* A member function whose body assigns to the fields of `*this`, or that takes
  the object by non-const reference and works on a copy, returns the state of
  the object after the call together with the outcome, so that what a failed
  call leaves behind can be stated.
* A `T&` result is the address of the cell it refers to.
-/

namespace SafeArrayModel

/-- Exception kinds thrown by the two headers. -/
inductive Exn where
  /-- The exception `std::out_of_range`. -/
  | out_of_range
  /-- The exception `std::range_error`. -/
  | range_error
  deriving DecidableEq, Repr

deriving instance DecidableEq for Except

/-- Free store: the element stored at each address. -/
abbrev Heap (T : Type) := Int → T

/-- Assignment `*p = v`. -/
def Heap.write {T : Type} (h : Heap T) (p : Int) (v : T) : Heap T :=
  fun q => if q = p then v else h q

/-! ## The type `int` -/

/-- Least value of a 32-bit `int`. -/
def INT_MIN : Int := -2147483648

/-- Greatest value of a 32-bit `int`. -/
def INT_MAX : Int := 2147483647

/-- The integer is representable in an `int`. -/
def in_int (x : Int) : Prop :=
  INT_MIN ≤ x ∧ x ≤ INT_MAX

instance in_int.decidable (x : Int) : Decidable (in_int x) := by
  unfold in_int
  infer_instance

/-- Value an `int` object holds after it is assigned the arithmetic result `x`:
`x` itself when it is representable, else the representable integer congruent
to it modulo `2^32`. -/
def wrap_int (x : Int) : Int :=
  (x + 2147483648) % 4294967296 - 2147483648

/-! ## SafePointer.h, data members -/

/-- Data members of `SafePointer<T>`, in the order of the class body
(SafePointer.h lines 53 to 59). -/
structure SafePointer where
  m_forth : Int
  m_pointer : Int
  m_first : Int
  m_back : Int
  deriving DecidableEq, Repr

/-! ## SafeArray.h -/

/-- Data members of `SafeArray<T>` (SafeArray.h lines 30 and 35): the length
and the address of the first element of the owned block. -/
structure SafeArray where
  m_length : Int
  m_array : Int
  deriving DecidableEq, Repr

/-- Constant `SafeArray<T>::MAX_LENGTH`. -/
def SafeArray.MAX_LENGTH : Int := 300

/-- Constant `SafeArray<T>::MIN_LENGTH`. -/
def SafeArray.MIN_LENGTH : Int := 1

/-- Constant `SafeArray<T>::MIN_INDEX`. -/
def SafeArray.MIN_INDEX : Int := 0

/-- Constructor `SafeArray<T>::SafeArray(int length)` (SafeArray.h lines 64 to
72). `block` is the address returned by `new T[length]`. -/
def SafeArray.ctor (length : Int) (block : Int) : Except Exn SafeArray :=
  if length > SafeArray.MAX_LENGTH ∨ length < SafeArray.MIN_LENGTH then
    .error .out_of_range
  else
    .ok { m_length := length, m_array := block }

/-- Member `SafeArray<T>::inRange` (SafeArray.h lines 201 to 206). -/
def SafeArray.inRange (a : SafeArray) (index : Int) : Except Exn Unit :=
  if index ≥ a.m_length ∨ index < SafeArray.MIN_INDEX then
    .error .out_of_range
  else
    .ok ()

/-- Member `SafeArray<T>::getElementAt` (SafeArray.h lines 104 to 117). The
handler rethrows the exception it caught. -/
def SafeArray.getElementAt {T : Type} (h : Heap T) (a : SafeArray) (index : Int) :
    Except Exn T :=
  match a.inRange index with
  | .error e => .error e
  | .ok () => .ok (h (a.m_array + index))

/-- Member `SafeArray<T>::setElementAt` (SafeArray.h lines 125 to 138). Returns
the array object and the heap after the call, and the outcome. -/
def SafeArray.setElementAt {T : Type} (h : Heap T) (a : SafeArray) (value : T)
    (index : Int) : SafeArray × Heap T × Except Exn Unit :=
  match a.inRange index with
  | .error e => (a, h, .error e)
  | .ok () => (a, h.write (a.m_array + index) value, .ok ())

/-- Member `SafeArray<T>::getLength` (SafeArray.h lines 143 to 147). -/
def SafeArray.getLength (a : SafeArray) : Int :=
  a.m_length

/-- Member `SafeArray<T>::operator[]` (SafeArray.h lines 155 to 167). The result
is the address of `m_array[index]`. -/
def SafeArray.operator_index (a : SafeArray) (index : Int) : Except Exn Int :=
  match a.inRange index with
  | .error e => .error e
  | .ok () => .ok (a.m_array + index)

/-- Member `SafeArray<T>::operator*` (SafeArray.h lines 174 to 178): the address
of `m_array[0]`. -/
def SafeArray.operator_deref (a : SafeArray) : Int :=
  a.m_array + 0

/-! ## SafePointer.h, constructors -/

/-- Constructor `SafePointer<T>::SafePointer(T* pointer, int forth, T* first)`
(SafePointer.h lines 190 to 197). -/
def SafePointer.ctor (pointer : Int) (forth : Int) (first : Int) :
    Except Exn SafePointer :=
  if pointer - first < 0 then
    .error .range_error
  else
    .ok { m_forth := forth, m_pointer := pointer, m_first := first,
          m_back := pointer - first }

/-- Copy constructor `SafePointer<T>::SafePointer(const SafePointer<T>&)`
(SafePointer.h lines 204 to 209). The member `m_back` is recomputed, not
copied. -/
def SafePointer.copy_ctor (ptr : SafePointer) : SafePointer :=
  { m_forth := ptr.m_forth, m_pointer := ptr.m_pointer, m_first := ptr.m_first,
    m_back := ptr.m_pointer - ptr.m_first }

/-- Free function `operator+(int step, const SafeArray<T>& arr)` (SafeArray.h
lines 215 to 228). -/
def operator_add_int_arr (step : Int) (arr : SafeArray) : Except Exn SafePointer :=
  match arr.inRange step with
  | .error e => .error e
  | .ok () => SafePointer.ctor (arr.m_array + step) (arr.m_length - step) arr.m_array

/-- Free function `operator+(const SafeArray<T>& arr, int step)` (SafeArray.h
lines 230 to 243). -/
def operator_add_arr_int (arr : SafeArray) (step : Int) : Except Exn SafePointer :=
  match arr.inRange step with
  | .error e => .error e
  | .ok () => SafePointer.ctor (arr.m_array + step) (arr.m_length - step) arr.m_array

/-- Conversion constructor `SafePointer<T>::SafePointer(const SafeArray<T>& sa)`
(SafePointer.h lines 216 to 224). The local `temp` is initialised from
`sa + 1`; only its `m_first` is read, which a copy preserves. -/
def SafePointer.conv_ctor (sa : SafeArray) : Except Exn SafePointer :=
  match operator_add_arr_int sa 1 with
  | .error e => .error e
  | .ok temp =>
    .ok { m_pointer := temp.m_first, m_first := temp.m_first,
          m_forth := sa.getLength - 1, m_back := 0 }

/-! ## SafePointer.h, movement -/

/-- Member `SafePointer<T>::operator++()` (SafePointer.h lines 252 to 263).
Returns the object after the call and the outcome; on success the outcome is
the object the returned reference denotes. -/
def SafePointer.operator_pre_inc (c : SafePointer) : SafePointer × Except Exn SafePointer :=
  if c.m_forth = 0 then
    (c, .error .out_of_range)
  else
    let c1 : SafePointer :=
      { m_back := wrap_int (c.m_back + 1), m_forth := wrap_int (c.m_forth - 1),
        m_pointer := c.m_pointer + 1, m_first := c.m_first }
    (c1, .ok c1)

/-- Member `SafePointer<T>::operator++(int)` (SafePointer.h lines 238 to 246).
`temp` is a copy of the object made before the move; returning it by value
copies it once more at most, and a copy of a copy is the same copy. -/
def SafePointer.operator_post_inc (c : SafePointer) : SafePointer × Except Exn SafePointer :=
  let temp := SafePointer.copy_ctor c
  match c.operator_pre_inc with
  | (c1, .error e) => (c1, .error e)
  | (c1, .ok _) => (c1, .ok (SafePointer.copy_ctor temp))

/-- Member `SafePointer<T>::operator--()` (SafePointer.h lines 284 to 295). -/
def SafePointer.operator_pre_dec (c : SafePointer) : SafePointer × Except Exn SafePointer :=
  if c.m_first = c.m_pointer then
    (c, .error .out_of_range)
  else
    let c1 : SafePointer :=
      { m_back := wrap_int (c.m_back - 1), m_forth := wrap_int (c.m_forth + 1),
        m_pointer := c.m_pointer - 1, m_first := c.m_first }
    (c1, .ok c1)

/-- Member `SafePointer<T>::operator--(int)` (SafePointer.h lines 270 to 278). -/
def SafePointer.operator_post_dec (c : SafePointer) : SafePointer × Except Exn SafePointer :=
  let temp := SafePointer.copy_ctor c
  match c.operator_pre_dec with
  | (c1, .error e) => (c1, .error e)
  | (c1, .ok _) => (c1, .ok (SafePointer.copy_ctor temp))

/-- Member `SafePointer<T>::operator*` (SafePointer.h lines 301 to 305): the
address the returned reference denotes. -/
def SafePointer.operator_deref (c : SafePointer) : Int :=
  c.m_pointer

/-- Member `SafePointer<T>::operator+=` (SafePointer.h lines 314 to 325). The
result is returned by value, that is through the copy constructor. -/
def SafePointer.operator_add_assign (c : SafePointer) (step : Int) :
    SafePointer × Except Exn SafePointer :=
  if step > c.m_forth then
    (c, .error .out_of_range)
  else
    let c1 : SafePointer :=
      { m_back := wrap_int (c.m_back + step), m_forth := wrap_int (c.m_forth - step),
        m_pointer := c.m_pointer + step, m_first := c.m_first }
    (c1, .ok (SafePointer.copy_ctor c1))

/-- Member `SafePointer<T>::operator-=` (SafePointer.h lines 332 to 343). -/
def SafePointer.operator_sub_assign (c : SafePointer) (step : Int) :
    SafePointer × Except Exn SafePointer :=
  if step > c.m_back then
    (c, .error .out_of_range)
  else
    let c1 : SafePointer :=
      { m_back := wrap_int (c.m_back - step), m_forth := wrap_int (c.m_forth + step),
        m_pointer := c.m_pointer - step, m_first := c.m_first }
    (c1, .ok (SafePointer.copy_ctor c1))

/-- Member `SafePointer<T>::operator=` (SafePointer.h lines 365 to 374). The
operand is passed by value and the result is returned by value. -/
def SafePointer.operator_assign (_c : SafePointer) (arg : SafePointer) :
    SafePointer × SafePointer :=
  let operand := SafePointer.copy_ctor arg
  let c1 : SafePointer :=
    { m_back := operand.m_back, m_forth := operand.m_forth,
      m_pointer := operand.m_pointer, m_first := operand.m_first }
  (c1, SafePointer.copy_ctor c1)

/-- Friend `operator-(const SafePointer<T>&, const SafePointer<T>&)`
(SafePointer.h lines 101 to 106). -/
def operator_sub (lhs rhs : SafePointer) : Except Exn Int :=
  if lhs.m_first ≠ rhs.m_first then
    .error .range_error
  else
    .ok (lhs.m_pointer - rhs.m_pointer)

/-- Friend `operator==` (SafePointer.h lines 115 to 118). -/
def operator_eq (lhs rhs : SafePointer) : Bool :=
  decide (lhs.m_pointer = rhs.m_pointer)

/-- Friend `operator>` (SafePointer.h lines 126 to 132). -/
def operator_gt (lhs rhs : SafePointer) : Except Exn Bool :=
  if lhs.m_first ≠ rhs.m_first then
    .error .range_error
  else
    .ok (decide (lhs.m_pointer > rhs.m_pointer))

/-- Friend `operator<` (SafePointer.h lines 140 to 146). -/
def operator_lt (lhs rhs : SafePointer) : Except Exn Bool :=
  if lhs.m_first ≠ rhs.m_first then
    .error .range_error
  else
    operator_gt rhs lhs

/-- Friend `operator>=` (SafePointer.h lines 154 to 162). -/
def operator_ge (lhs rhs : SafePointer) : Except Exn Bool :=
  if operator_eq rhs lhs then
    .ok true
  else if lhs.m_first ≠ rhs.m_first then
    .error .range_error
  else
    operator_gt rhs lhs

/-- Friend `operator<=` (SafePointer.h lines 170 to 178). -/
def operator_le (lhs rhs : SafePointer) : Except Exn Bool :=
  if operator_eq rhs lhs then
    .ok true
  else if lhs.m_first ≠ rhs.m_first then
    .error .range_error
  else
    operator_lt rhs lhs

/-! ## Invariant of the data model -/

/-- Invariant stated for cursors: both travel counts are non-negative and
`m_back` is the distance from the origin. -/
def SafePointer.Inv (c : SafePointer) : Prop :=
  0 ≤ c.m_forth ∧ 0 ≤ c.m_back ∧ c.m_back = c.m_pointer - c.m_first

instance SafePointer.decidableInv (c : SafePointer) : Decidable c.Inv := by
  unfold SafePointer.Inv
  infer_instance

/-- Representation invariant of the class: `m_back` is the distance of
`m_pointer` from `m_first`. The members are private, every constructor
establishes it and every member keeps it while that distance is representable
in an `int` (lemmas `wf_constructors` and `wf_members`). -/
def SafePointer.WF (c : SafePointer) : Prop :=
  c.m_back = c.m_pointer - c.m_first

instance SafePointer.decidableWF (c : SafePointer) : Decidable c.WF := by
  unfold SafePointer.WF
  infer_instance

/-- The statement `c--;` executed `n` times in a row, as in `main` (main.cpp
lines 63 and 64); the run stops at the first exception. Returns the object
after the run and the outcome. -/
def post_dec_times : Nat → SafePointer → SafePointer × Except Exn Unit
  | 0, c => (c, .ok ())
  | n + 1, c =>
    match c.operator_post_dec with
    | (c1, .error e) => (c1, .error e)
    | (c1, .ok _) => post_dec_times n c1

/-! ## Auxiliary facts -/

/-- A representable result is stored as it is. -/
theorem wrap_int_of_in_int (x : Int) (h : in_int x) : wrap_int x = x := by
  unfold in_int INT_MIN INT_MAX at h
  unfold wrap_int
  omega

/-- What an `int` holds is representable. -/
theorem in_int_wrap_int (x : Int) : in_int (wrap_int x) := by
  unfold in_int INT_MIN INT_MAX wrap_int
  omega

/-- Two assignments in a row wrap like the single assignment of the total. -/
theorem wrap_int_add (x y : Int) : wrap_int (wrap_int x + y) = wrap_int (x + y) := by
  unfold wrap_int
  omega

/-- At the ends of the range the members wrap: decrementing the cursor built
from `(first + 1, INT_MAX, first)` leaves `m_forth = INT_MIN`, and incrementing
the cursor built from `(first, INT_MIN, first)` leaves `m_forth = INT_MAX`. -/
theorem moves_wrap_at_the_ends_of_int :
    SafePointer.ctor 1 INT_MAX 0 =
      .ok { m_forth := 2147483647, m_pointer := 1, m_first := 0, m_back := 1 } ∧
    (SafePointer.operator_pre_dec
        { m_forth := 2147483647, m_pointer := 1, m_first := 0, m_back := 1 }).1 =
      { m_forth := -2147483648, m_pointer := 0, m_first := 0, m_back := 0 } ∧
    SafePointer.ctor 0 INT_MIN 0 =
      .ok { m_forth := -2147483648, m_pointer := 0, m_first := 0, m_back := 0 } ∧
    (SafePointer.operator_pre_inc
        { m_forth := -2147483648, m_pointer := 0, m_first := 0, m_back := 0 }).1 =
      { m_forth := 2147483647, m_pointer := 1, m_first := 0, m_back := 1 } := by
  decide

/-- The range check passes exactly on the indices from 0 up to the length. -/
theorem inRange_eq (a : SafeArray) (index : Int) :
    a.inRange index =
      if index < 0 ∨ index ≥ a.m_length then .error .out_of_range else .ok () := by
  unfold SafeArray.inRange SafeArray.MIN_INDEX
  by_cases h1 : index ≥ a.m_length <;> by_cases h2 : index < 0 <;> simp [h1, h2]

/-- Closed form of `a + step`: the check of the cursor constructor never
fires behind the range check. -/
theorem operator_add_arr_int_eq (a : SafeArray) (step : Int) :
    operator_add_arr_int a step =
      if step < 0 ∨ step ≥ a.m_length then .error .out_of_range
      else .ok { m_forth := a.m_length - step, m_pointer := a.m_array + step,
                 m_first := a.m_array, m_back := step } := by
  unfold operator_add_arr_int
  rw [inRange_eq]
  by_cases h : step < 0 ∨ step ≥ a.m_length
  · rw [if_pos h, if_pos h]
  · rw [if_neg h, if_neg h]
    have h0 : ¬ (step < 0) := fun hs => h (Or.inl hs)
    simp [SafePointer.ctor, h0]

/-- Closed form of the conversion from an array: it goes through `sa + 1`,
which the range check refuses when the length is 1 or less. -/
theorem conv_ctor_eq (sa : SafeArray) :
    SafePointer.conv_ctor sa =
      if sa.m_length ≤ 1 then .error .out_of_range
      else .ok { m_forth := sa.m_length - 1, m_pointer := sa.m_array,
                 m_first := sa.m_array, m_back := 0 } := by
  unfold SafePointer.conv_ctor
  rw [operator_add_arr_int_eq]
  by_cases h : sa.m_length ≤ 1
  · have h1 : (1 : Int) < 0 ∨ 1 ≥ sa.m_length := Or.inr h
    simp [h, h1]
  · have h1 : ¬ ((1 : Int) < 0 ∨ 1 ≥ sa.m_length) := by omega
    simp [h, h1, SafeArray.getLength]

/-- Closed form of `lhs >= rhs`: behind the equality test and the origin test
the result is `rhs > lhs`. -/
theorem operator_ge_eq (lhs rhs : SafePointer) :
    operator_ge lhs rhs =
      if rhs.m_pointer = lhs.m_pointer then .ok true
      else if lhs.m_first ≠ rhs.m_first then .error .range_error
      else .ok (decide (rhs.m_pointer > lhs.m_pointer)) := by
  unfold operator_ge operator_eq operator_gt
  by_cases h1 : rhs.m_pointer = lhs.m_pointer
  · simp [h1]
  · by_cases h2 : lhs.m_first = rhs.m_first
    · simp [h1, h2]
    · have h3 : ¬ rhs.m_first = lhs.m_first := fun h => h2 h.symm
      simp [h1, h2, h3]

/-- Every cursor `a + step` satisfies the invariant. -/
theorem inv_array_plus_step (a : SafeArray) (step : Int) (c : SafePointer)
    (h : operator_add_arr_int a step = .ok c) : c.Inv := by
  rw [operator_add_arr_int_eq] at h
  by_cases hr : step < 0 ∨ step ≥ a.m_length
  · simp [hr] at h
  · simp [hr] at h
    subst h
    simp only [SafePointer.Inv]
    omega

/-- Increment and decrement keep the invariant of a cursor whose travel budget
`m_forth + m_back` fits an `int`. -/
theorem inv_inc_dec (c : SafePointer) (hc : c.Inv) (hfit : c.m_forth + c.m_back ≤ INT_MAX) :
    c.operator_pre_inc.1.Inv ∧ c.operator_pre_dec.1.Inv := by
  obtain ⟨h1, h2, h3⟩ := hc
  unfold INT_MAX at hfit
  unfold SafePointer.operator_pre_inc SafePointer.operator_pre_dec
  constructor
  · by_cases h : c.m_forth = 0
    · simp only [if_pos h, SafePointer.Inv]
      omega
    · simp only [if_neg h, SafePointer.Inv, wrap_int]
      omega
  · by_cases h : c.m_first = c.m_pointer
    · simp only [if_pos h, SafePointer.Inv]
      omega
    · simp only [if_neg h, SafePointer.Inv, wrap_int]
      omega

/-- The operators `+=` and `-=` keep the invariant of a cursor whose travel
budget fits an `int` when the step is not negative. -/
theorem inv_assign_nonneg (c : SafePointer) (k : Int) (hc : c.Inv)
    (hfit : c.m_forth + c.m_back ≤ INT_MAX) (hk : 0 ≤ k) :
    (c.operator_add_assign k).1.Inv ∧ (c.operator_sub_assign k).1.Inv := by
  obtain ⟨h1, h2, h3⟩ := hc
  unfold INT_MAX at hfit
  unfold SafePointer.operator_add_assign SafePointer.operator_sub_assign
  constructor
  · by_cases h : k > c.m_forth
    · simp only [if_pos h, SafePointer.Inv]
      omega
    · simp only [if_neg h, SafePointer.Inv, wrap_int]
      omega
  · by_cases h : k > c.m_back
    · simp only [if_pos h, SafePointer.Inv]
      omega
    · simp only [if_neg h, SafePointer.Inv, wrap_int]
      omega

/-- Every constructor of `SafePointer` establishes the representation
invariant. -/
theorem wf_constructors :
    (∀ pointer forth first c, SafePointer.ctor pointer forth first = .ok c → c.WF) ∧
    (∀ ptr, (SafePointer.copy_ctor ptr).WF) ∧
    (∀ sa c, SafePointer.conv_ctor sa = .ok c → c.WF) := by
  refine ⟨?_, ?_, ?_⟩
  · intro pointer forth first c h
    unfold SafePointer.ctor at h
    by_cases hp : pointer - first < 0
    · simp [hp] at h
    · simp [hp] at h
      subst h
      simp [SafePointer.WF]
  · intro ptr
    simp [SafePointer.copy_ctor, SafePointer.WF]
  · intro sa c h
    rw [conv_ctor_eq] at h
    by_cases hl : sa.m_length ≤ 1
    · simp [hl] at h
    · simp [hl] at h
      subst h
      simp [SafePointer.WF]

/-- Every member that assigns to the object keeps the representation
invariant, whether it succeeds or throws, as long as the new distance from the
origin is representable. -/
theorem wf_members (c : SafePointer) (h : c.WF) :
    (in_int (c.m_back + 1) → c.operator_pre_inc.1.WF ∧ c.operator_post_inc.1.WF) ∧
    (in_int (c.m_back - 1) → c.operator_pre_dec.1.WF ∧ c.operator_post_dec.1.WF) ∧
    (∀ step, in_int (c.m_back + step) → (c.operator_add_assign step).1.WF) ∧
    (∀ step, in_int (c.m_back - step) → (c.operator_sub_assign step).1.WF) ∧
    (∀ arg, (c.operator_assign arg).1.WF) := by
  simp only [SafePointer.WF] at h
  refine ⟨?_, ?_, ?_, ?_, ?_⟩
  · intro hr
    have hw := wrap_int_of_in_int _ hr
    unfold SafePointer.operator_post_inc SafePointer.operator_pre_inc
    by_cases h0 : c.m_forth = 0
    · simp only [if_pos h0, SafePointer.WF]
      omega
    · simp only [if_neg h0, SafePointer.WF, hw]
      omega
  · intro hr
    have hw := wrap_int_of_in_int _ hr
    unfold SafePointer.operator_post_dec SafePointer.operator_pre_dec
    by_cases h0 : c.m_first = c.m_pointer
    · simp only [if_pos h0, SafePointer.WF]
      omega
    · simp only [if_neg h0, SafePointer.WF, hw]
      omega
  · intro step hr
    have hw := wrap_int_of_in_int _ hr
    unfold SafePointer.operator_add_assign
    by_cases h0 : step > c.m_forth
    · simp only [if_pos h0, SafePointer.WF]
      omega
    · simp only [if_neg h0, SafePointer.WF, hw]
      omega
  · intro step hr
    have hw := wrap_int_of_in_int _ hr
    unfold SafePointer.operator_sub_assign
    by_cases h0 : step > c.m_back
    · simp only [if_pos h0, SafePointer.WF]
      omega
    · simp only [if_neg h0, SafePointer.WF, hw]
      omega
  · intro arg
    simp [SafePointer.operator_assign, SafePointer.copy_ctor, SafePointer.WF]

/-- A run of `n` decrements on a cursor that stands `n` cells after its origin:
every one of them succeeds and the cursor ends on the origin. -/
theorem post_dec_times_eq (n : Nat) (c : SafePointer)
    (h : c.m_pointer = c.m_first + (n : Int)) :
    ∃ forth back,
      post_dec_times n c =
        ({ m_forth := forth, m_pointer := c.m_first, m_first := c.m_first,
           m_back := back }, .ok ()) := by
  induction n generalizing c with
  | zero =>
    obtain ⟨f, p, o, b⟩ := c
    simp only [Nat.cast_zero, add_zero] at h
    exact ⟨f, b, by simp [post_dec_times, h]⟩
  | succ n ih =>
    have hne : ¬ c.m_first = c.m_pointer := by
      rw [h]
      push_cast
      omega
    have hstep : c.operator_post_dec =
        ({ m_forth := wrap_int (c.m_forth + 1), m_pointer := c.m_pointer - 1,
           m_first := c.m_first, m_back := wrap_int (c.m_back - 1) },
         .ok (SafePointer.copy_ctor (SafePointer.copy_ctor c))) := by
      unfold SafePointer.operator_post_dec SafePointer.operator_pre_dec
      simp only [if_neg hne]
    obtain ⟨forth, back, hrec⟩ :=
      ih { m_forth := wrap_int (c.m_forth + 1), m_pointer := c.m_pointer - 1,
           m_first := c.m_first, m_back := wrap_int (c.m_back - 1) }
        (by simp only [h]; push_cast; omega)
    exact ⟨forth, back, by simp only [post_dec_times, hstep, hrec]⟩

/-! ## Claims -/

/-- C1 (the code departs from it): the array of length 1 is accepted, the
cursor `a + 0` is built with `m_forth = 1`, its increment succeeds, and the
cursor then stands at offset 1 from the first element, which equals the length:
one past the last element. -/
theorem C1_increment_reaches_past_the_end :
    SafeArray.ctor 1 0 = .ok { m_length := 1, m_array := 0 } ∧
    operator_add_arr_int { m_length := 1, m_array := 0 } 0 =
      .ok { m_forth := 1, m_pointer := 0, m_first := 0, m_back := 0 } ∧
    SafePointer.operator_pre_inc { m_forth := 1, m_pointer := 0, m_first := 0, m_back := 0 } =
      ({ m_forth := 0, m_pointer := 1, m_first := 0, m_back := 1 },
       .ok { m_forth := 0, m_pointer := 1, m_first := 0, m_back := 1 }) ∧
    SafePointer.operator_deref { m_forth := 0, m_pointer := 1, m_first := 0, m_back := 1 }
        - SafeArray.operator_deref { m_length := 1, m_array := 0 }
      = SafeArray.getLength { m_length := 1, m_array := 0 } := by
  decide

/-- C2: `a + step` and `step + a` have the same outcome; it is
`std::out_of_range` exactly when `step < 0` or `step >= length`, and otherwise
it is the cursor with origin the first element, position `origin + step`,
`m_back = step` and `m_forth = length - step`. -/
theorem C2_array_plus_step (a : SafeArray) (step : Int) :
    operator_add_int_arr step a = operator_add_arr_int a step ∧
    (operator_add_arr_int a step = .error .out_of_range ↔
      (step < 0 ∨ step ≥ a.getLength)) ∧
    (operator_add_arr_int a step =
        .ok { m_forth := a.getLength - step, m_pointer := a.m_array + step,
              m_first := a.m_array, m_back := step } ↔
      ¬ (step < 0 ∨ step ≥ a.getLength)) := by
  refine ⟨rfl, ?_, ?_⟩
  · rw [operator_add_arr_int_eq]
    unfold SafeArray.getLength
    by_cases h : step < 0 ∨ step ≥ a.m_length
    · simp [h]
    · simp [h]
  · rw [operator_add_arr_int_eq]
    unfold SafeArray.getLength
    by_cases h : step < 0 ∨ step ≥ a.m_length
    · simp [h]
    · simp [h]

/-- C3: `getElementAt`, `setElementAt` and `operator[]` throw
`std::out_of_range` exactly when `i < 0` or `i >= getLength()`, and succeed
otherwise; a failing `setElementAt` leaves the array object and every cell of
the heap as they were (the other two never assign). -/
theorem C3_access_out_of_range {T : Type} (h : Heap T) (a : SafeArray) (v : T) (i : Int) :
    (a.getElementAt h i = .error .out_of_range ↔ (i < 0 ∨ i ≥ a.getLength)) ∧
    ((∃ x, a.getElementAt h i = .ok x) ↔ ¬ (i < 0 ∨ i ≥ a.getLength)) ∧
    ((a.setElementAt h v i).2.2 = .error .out_of_range ↔ (i < 0 ∨ i ≥ a.getLength)) ∧
    ((a.setElementAt h v i).2.2 = .ok () ↔ ¬ (i < 0 ∨ i ≥ a.getLength)) ∧
    (a.operator_index i = .error .out_of_range ↔ (i < 0 ∨ i ≥ a.getLength)) ∧
    ((∃ p, a.operator_index i = .ok p) ↔ ¬ (i < 0 ∨ i ≥ a.getLength)) ∧
    ((a.setElementAt h v i).1, (a.setElementAt h v i).2.1) =
      (if i < 0 ∨ i ≥ a.getLength then (a, h)
       else (a, h.write (a.m_array + i) v)) := by
  unfold SafeArray.getElementAt SafeArray.setElementAt SafeArray.operator_index
    SafeArray.getLength
  rw [inRange_eq]
  by_cases hr : i < 0 ∨ i ≥ a.m_length
  · simp [hr]
  · simp [hr]

/-- C4: for a valid index `i`, `setElementAt(v, i)` succeeds; afterwards
`getElementAt(i)` returns `v`, `getElementAt(j)` returns what it returned
before for every other valid index `j`, and `getLength()` is unchanged. -/
theorem C4_set_then_get {T : Type} (h : Heap T) (a : SafeArray) (v : T) (i : Int)
    (hi0 : 0 ≤ i) (hi1 : i < a.getLength) :
    (a.setElementAt h v i).2.2 = .ok () ∧
    (a.setElementAt h v i).1.getElementAt (a.setElementAt h v i).2.1 i = .ok v ∧
    (∀ j, 0 ≤ j → j < a.getLength → j ≠ i →
      a.getElementAt h j = .ok (h (a.m_array + j)) ∧
      (a.setElementAt h v i).1.getElementAt (a.setElementAt h v i).2.1 j
        = a.getElementAt h j) ∧
    (a.setElementAt h v i).1.getLength = a.getLength := by
  unfold SafeArray.getLength at hi1
  have hri : ¬ (i < 0 ∨ i ≥ a.m_length) := by omega
  have hset : a.setElementAt h v i = (a, h.write (a.m_array + i) v, .ok ()) := by
    unfold SafeArray.setElementAt
    rw [inRange_eq, if_neg hri]
  rw [hset]
  refine ⟨rfl, ?_, ?_, rfl⟩
  · unfold SafeArray.getElementAt
    rw [inRange_eq, if_neg hri]
    simp [Heap.write]
  · intro j hj0 hj1 hne
    unfold SafeArray.getLength at hj1
    have hrj : ¬ (j < 0 ∨ j ≥ a.m_length) := by omega
    have hw : a.m_array + j ≠ a.m_array + i := by omega
    unfold SafeArray.getElementAt
    rw [inRange_eq, if_neg hrj]
    simp [Heap.write, hw]

/-- Witness of C4 on an array of 8 cells at address 100, all holding 0:
writing 7 at index 2 and reading index 3. -/
theorem C4_set_then_get_witness :
    (0 : Int) ≤ 2 ∧ (2 : Int) < SafeArray.getLength ⟨8, 100⟩ ∧
    (0 : Int) ≤ 3 ∧ (3 : Int) < SafeArray.getLength ⟨8, 100⟩ ∧ (3 : Int) ≠ 2 ∧
    (SafeArray.setElementAt (fun _ => (0 : Nat)) ⟨8, 100⟩ 7 2).2.2 = .ok () ∧
    (SafeArray.setElementAt (fun _ => (0 : Nat)) ⟨8, 100⟩ 7 2).1.getElementAt
      (SafeArray.setElementAt (fun _ => (0 : Nat)) ⟨8, 100⟩ 7 2).2.1 2 = .ok 7 ∧
    (SafeArray.setElementAt (fun _ => (0 : Nat)) ⟨8, 100⟩ 7 2).1.getElementAt
      (SafeArray.setElementAt (fun _ => (0 : Nat)) ⟨8, 100⟩ 7 2).2.1 3
      = SafeArray.getElementAt (fun _ => (0 : Nat)) ⟨8, 100⟩ 3 ∧
    (SafeArray.setElementAt (fun _ => (0 : Nat)) ⟨8, 100⟩ 7 2).1.getLength
      = SafeArray.getLength ⟨8, 100⟩ :=
  ⟨by decide, by decide, by decide, by decide, by decide,
   (C4_set_then_get (fun _ => (0 : Nat)) ⟨8, 100⟩ 7 2 (by decide) (by decide)).1,
   (C4_set_then_get (fun _ => (0 : Nat)) ⟨8, 100⟩ 7 2 (by decide) (by decide)).2.1,
   ((C4_set_then_get (fun _ => (0 : Nat)) ⟨8, 100⟩ 7 2 (by decide) (by decide)).2.2.1 3
      (by decide) (by decide) (by decide)).2,
   (C4_set_then_get (fun _ => (0 : Nat)) ⟨8, 100⟩ 7 2 (by decide) (by decide)).2.2.2⟩

/-- C5: `SafeArray(length)` succeeds exactly when `1 <= length <= 300`, and the
array it builds has `getLength() == length`; for every other length it throws
`std::out_of_range`. -/
theorem C5_construction (length block : Int) :
    ((∃ a, SafeArray.ctor length block = .ok a ∧ a.getLength = length) ↔
      (1 ≤ length ∧ length ≤ 300)) ∧
    ((∃ a, SafeArray.ctor length block = .ok a) ↔ (1 ≤ length ∧ length ≤ 300)) ∧
    (SafeArray.ctor length block = .error .out_of_range ↔
      ¬ (1 ≤ length ∧ length ≤ 300)) := by
  unfold SafeArray.ctor SafeArray.MAX_LENGTH SafeArray.MIN_LENGTH SafeArray.getLength
  by_cases hr : length > 300 ∨ length < 1
  · have hn : ¬ (1 ≤ length ∧ length ≤ 300) := by omega
    simp [hr, hn]
  · have hn : 1 ≤ length ∧ length ≤ 300 := by omega
    simp [hr, hn]

/-- C6: `c += step` throws `std::out_of_range` exactly when `step > m_forth`
and `c -= step` exactly when `step > m_back`, and succeed otherwise; a failing
call leaves every member of `c` as it was; a successful `+=` leaves
`(m_pointer + step, m_forth - step, m_back + step)` and a successful `-=` leaves
`(m_pointer - step, m_forth + step, m_back - step)`, with `m_first` unchanged.
The sums and differences of the `int` members are those of `int` arithmetic,
and the exact ones whenever they are representable. -/
theorem C6_add_sub_assign (c : SafePointer) (step : Int) :
    ((c.operator_add_assign step).2 = .error .out_of_range ↔ step > c.m_forth) ∧
    ((∃ r, (c.operator_add_assign step).2 = .ok r) ↔ ¬ step > c.m_forth) ∧
    (c.operator_add_assign step).1 =
      (if step > c.m_forth then c
       else { m_forth := wrap_int (c.m_forth - step), m_pointer := c.m_pointer + step,
              m_first := c.m_first, m_back := wrap_int (c.m_back + step) }) ∧
    (¬ step > c.m_forth → in_int (c.m_forth - step) → in_int (c.m_back + step) →
      (c.operator_add_assign step).1 =
        { m_forth := c.m_forth - step, m_pointer := c.m_pointer + step,
          m_first := c.m_first, m_back := c.m_back + step }) ∧
    ((c.operator_sub_assign step).2 = .error .out_of_range ↔ step > c.m_back) ∧
    ((∃ r, (c.operator_sub_assign step).2 = .ok r) ↔ ¬ step > c.m_back) ∧
    (c.operator_sub_assign step).1 =
      (if step > c.m_back then c
       else { m_forth := wrap_int (c.m_forth + step), m_pointer := c.m_pointer - step,
              m_first := c.m_first, m_back := wrap_int (c.m_back - step) }) ∧
    (¬ step > c.m_back → in_int (c.m_forth + step) → in_int (c.m_back - step) →
      (c.operator_sub_assign step).1 =
        { m_forth := c.m_forth + step, m_pointer := c.m_pointer - step,
          m_first := c.m_first, m_back := c.m_back - step }) := by
  unfold SafePointer.operator_add_assign SafePointer.operator_sub_assign
  refine ⟨?_, ?_, ?_, ?_, ?_, ?_, ?_, ?_⟩
  · by_cases h1 : step > c.m_forth <;> simp [h1]
  · by_cases h1 : step > c.m_forth <;> simp [h1]
  · by_cases h1 : step > c.m_forth <;> simp [h1]
  · intro h1 hf hb
    simp only [if_neg h1, wrap_int_of_in_int _ hf, wrap_int_of_in_int _ hb]
  · by_cases h2 : step > c.m_back <;> simp [h2]
  · by_cases h2 : step > c.m_back <;> simp [h2]
  · by_cases h2 : step > c.m_back <;> simp [h2]
  · intro h2 hf hb
    simp only [if_neg h2, wrap_int_of_in_int _ hf, wrap_int_of_in_int _ hb]

/-- Witness of C6 on the cursor `a + 5` of an array of 8 cells at address 100,
moved by 2 in either direction. -/
theorem C6_add_sub_assign_witness :
    ¬ (2 : Int) > SafePointer.m_forth
      { m_forth := 3, m_pointer := 105, m_first := 100, m_back := 5 } ∧
    in_int ((3 : Int) - 2) ∧ in_int ((5 : Int) + 2) ∧
    (SafePointer.operator_add_assign
        { m_forth := 3, m_pointer := 105, m_first := 100, m_back := 5 } 2).1 =
      { m_forth := (3 : Int) - 2, m_pointer := (105 : Int) + 2, m_first := 100,
        m_back := (5 : Int) + 2 } ∧
    ¬ (2 : Int) > SafePointer.m_back
      { m_forth := 3, m_pointer := 105, m_first := 100, m_back := 5 } ∧
    in_int ((3 : Int) + 2) ∧ in_int ((5 : Int) - 2) ∧
    (SafePointer.operator_sub_assign
        { m_forth := 3, m_pointer := 105, m_first := 100, m_back := 5 } 2).1 =
      { m_forth := (3 : Int) + 2, m_pointer := (105 : Int) - 2, m_first := 100,
        m_back := (5 : Int) - 2 } :=
  ⟨by decide, by decide, by decide,
   (C6_add_sub_assign { m_forth := 3, m_pointer := 105, m_first := 100, m_back := 5 } 2).2.2.2.1
     (by decide) (by decide) (by decide),
   by decide, by decide, by decide,
   (C6_add_sub_assign { m_forth := 3, m_pointer := 105, m_first := 100, m_back := 5 }
     2).2.2.2.2.2.2.2
     (by decide) (by decide) (by decide)⟩

/-- C7 (the code departs from it): on the array of length 1 the cursor
`a + 0` accepts `+= -1`, which leaves `m_back = -1` and the position one cell
before the origin, and accepts `-= -2`, which leaves `m_forth = -1`. -/
theorem C7_negative_step_breaks_invariant :
    SafeArray.ctor 1 0 = .ok { m_length := 1, m_array := 0 } ∧
    operator_add_arr_int { m_length := 1, m_array := 0 } 0 =
      .ok { m_forth := 1, m_pointer := 0, m_first := 0, m_back := 0 } ∧
    SafePointer.operator_add_assign
        { m_forth := 1, m_pointer := 0, m_first := 0, m_back := 0 } (-1) =
      ({ m_forth := 2, m_pointer := -1, m_first := 0, m_back := -1 },
       .ok { m_forth := 2, m_pointer := -1, m_first := 0, m_back := -1 }) ∧
    ¬ SafePointer.Inv { m_forth := 2, m_pointer := -1, m_first := 0, m_back := -1 } ∧
    SafePointer.operator_sub_assign
        { m_forth := 1, m_pointer := 0, m_first := 0, m_back := 0 } (-2) =
      ({ m_forth := -1, m_pointer := 2, m_first := 0, m_back := 2 },
       .ok { m_forth := -1, m_pointer := 2, m_first := 0, m_back := 2 }) ∧
    ¬ SafePointer.Inv { m_forth := -1, m_pointer := 2, m_first := 0, m_back := 2 } := by
  decide

/-- C8 (the code departs from it): on the array of 7 cells the cursor `a + 3`,
which stands on the 4th cell, is built with `m_forth = 4`, not the 3 cells that
lie after it, so that `m_forth + m_back` is 7 and not 6. -/
theorem C8_forth_counts_one_too_many :
    SafeArray.ctor 7 0 = .ok { m_length := 7, m_array := 0 } ∧
    operator_add_arr_int { m_length := 7, m_array := 0 } 3 =
      .ok { m_forth := 4, m_pointer := 3, m_first := 0, m_back := 3 } ∧
    (4 : Int) ≠ SafeArray.getLength { m_length := 7, m_array := 0 } - 1 - 3 ∧
    (4 : Int) + 3 ≠ SafeArray.getLength { m_length := 7, m_array := 0 } - 1 := by
  decide

/-- C9 (the code departs from it): the array of length 1 is accepted by the
constructor, and converting it to a cursor throws `std::out_of_range`. -/
theorem C9_conversion_fails_on_length_one :
    SafeArray.ctor 1 0 = .ok { m_length := 1, m_array := 0 } ∧
    SafePointer.conv_ctor { m_length := 1, m_array := 0 } = .error .out_of_range := by
  decide

/-- C10 (the code departs from it): on the array of length 2, with
`lhs = a + 1` and `rhs = a + 0`, the cursors share their origin and `lhs > rhs`
is true, yet `lhs >= rhs` returns false. -/
theorem C10_ge_returns_false_on_greater :
    SafeArray.ctor 2 0 = .ok { m_length := 2, m_array := 0 } ∧
    operator_add_arr_int { m_length := 2, m_array := 0 } 1 =
      .ok { m_forth := 1, m_pointer := 1, m_first := 0, m_back := 1 } ∧
    operator_add_arr_int { m_length := 2, m_array := 0 } 0 =
      .ok { m_forth := 2, m_pointer := 0, m_first := 0, m_back := 0 } ∧
    operator_gt { m_forth := 1, m_pointer := 1, m_first := 0, m_back := 1 }
        { m_forth := 2, m_pointer := 0, m_first := 0, m_back := 0 } = .ok true ∧
    operator_ge { m_forth := 1, m_pointer := 1, m_first := 0, m_back := 1 }
        { m_forth := 2, m_pointer := 0, m_first := 0, m_back := 0 } = .ok false := by
  decide

/-- C11: `a > b` and `a < b` throw `std::range_error` exactly when the origins
differ; when the origins are equal both return, exactly one of `a > b`, `a < b`,
`a == b` is true, and in every case `a < b` has the outcome of `b > a`.
`a == b` is a total function, true exactly when the positions are equal,
whatever the origins. -/
theorem C11_comparison_trichotomy (a b : SafePointer) :
    (operator_gt a b = .error .range_error ↔ a.m_first ≠ b.m_first) ∧
    (operator_lt a b = .error .range_error ↔ a.m_first ≠ b.m_first) ∧
    (a.m_first = b.m_first ↔
      ((operator_gt a b = .ok true ∧ operator_lt a b = .ok false ∧ operator_eq a b = false) ∨
       (operator_gt a b = .ok false ∧ operator_lt a b = .ok true ∧ operator_eq a b = false) ∨
       (operator_gt a b = .ok false ∧ operator_lt a b = .ok false ∧ operator_eq a b = true))) ∧
    operator_lt a b = operator_gt b a ∧
    (operator_eq a b = true ↔ a.m_pointer = b.m_pointer) := by
  unfold operator_lt operator_gt operator_eq
  by_cases hf : a.m_first = b.m_first
  · have hf2 : b.m_first = a.m_first := hf.symm
    rcases lt_trichotomy a.m_pointer b.m_pointer with h | h | h
    · have h1 : ¬ a.m_pointer > b.m_pointer := by omega
      have h2 : ¬ a.m_pointer = b.m_pointer := by omega
      simp [hf, h, h1, h2]
    · simp [hf, h]
    · have h1 : ¬ a.m_pointer < b.m_pointer := by omega
      have h2 : ¬ a.m_pointer = b.m_pointer := by omega
      have h3 : b.m_pointer < a.m_pointer := h
      simp [hf, h1, h2, h3]
  · have hf2 : ¬ b.m_first = a.m_first := fun h => hf h.symm
    simp [hf, hf2]

/-- C12: `lhs - rhs` throws `std::range_error` exactly when the origins differ
and otherwise returns `lhs.m_pointer - rhs.m_pointer`; for cursors of one
origin `a - b` is the negation of `b - a`, and it is `a.m_back - b.m_back` when
both cursors have `m_back == m_pointer - m_first`. -/
theorem C12_pointer_difference (lhs rhs : SafePointer) :
    (operator_sub lhs rhs = .error .range_error ↔ lhs.m_first ≠ rhs.m_first) ∧
    (operator_sub lhs rhs = .ok (lhs.m_pointer - rhs.m_pointer) ↔
      lhs.m_first = rhs.m_first) ∧
    (lhs.m_first = rhs.m_first ↔
      ∃ d, operator_sub lhs rhs = .ok d ∧ operator_sub rhs lhs = .ok (-d)) ∧
    (lhs.m_first = rhs.m_first → lhs.WF → rhs.WF →
      operator_sub lhs rhs = .ok (lhs.m_back - rhs.m_back)) := by
  unfold operator_sub
  by_cases hf : lhs.m_first = rhs.m_first
  · have hf2 : rhs.m_first = lhs.m_first := hf.symm
    refine ⟨by simp [hf], by simp [hf], by simp [hf], ?_⟩
    intro _ hl hr
    simp only [SafePointer.WF] at hl hr
    have hd : lhs.m_pointer - rhs.m_pointer = lhs.m_back - rhs.m_back := by omega
    simp [hf, hd]
  · have hf2 : ¬ rhs.m_first = lhs.m_first := fun h => hf h.symm
    simp [hf, hf2]

/-- Witness of C12 on the cursors `a + 5` and `a + 2` of an array of 8 cells at
address 100. -/
theorem C12_pointer_difference_witness :
    operator_sub { m_forth := 3, m_pointer := 105, m_first := 100, m_back := 5 }
        { m_forth := 6, m_pointer := 102, m_first := 100, m_back := 2 } =
      .ok ((5 : Int) - 2) :=
  (C12_pointer_difference
      { m_forth := 3, m_pointer := 105, m_first := 100, m_back := 5 }
      { m_forth := 6, m_pointer := 102, m_first := 100, m_back := 2 }).2.2.2
    (by decide) (by decide) (by decide)

/-- C15, as stated, fails: the constructor accepts `(first + 1, -1, first)`,
a cursor with `m_back = 1`; its decrement succeeds and leaves `m_forth = 0`, so
that the increment that follows throws `std::out_of_range`. -/
theorem C15_decrement_then_increment_throws :
    SafePointer.ctor 1 (-1) 0 =
      .ok { m_forth := -1, m_pointer := 1, m_first := 0, m_back := 1 } ∧
    (1 : Int) ≤ SafePointer.m_back { m_forth := -1, m_pointer := 1, m_first := 0, m_back := 1 } ∧
    SafePointer.operator_pre_dec { m_forth := -1, m_pointer := 1, m_first := 0, m_back := 1 } =
      ({ m_forth := 0, m_pointer := 0, m_first := 0, m_back := 0 },
       .ok { m_forth := 0, m_pointer := 0, m_first := 0, m_back := 0 }) ∧
    SafePointer.operator_pre_inc { m_forth := 0, m_pointer := 0, m_first := 0, m_back := 0 } =
      ({ m_forth := 0, m_pointer := 0, m_first := 0, m_back := 0 },
       .error .out_of_range) := by
  decide

/-- C15, amended: for a cursor `c` accepted by the three-argument constructor
(its `int` members holding `int` values), if `m_forth >= 1` then the increment
and the decrement that follows both succeed and leave `c` with every member as
before; if `m_back >= 1` then the decrement succeeds, and the increment that
follows succeeds and restores `c` when `m_forth` is not -1, and throws
`std::out_of_range`, moving nothing, when `m_forth` is -1. -/
theorem C15_move_and_back (pointer forth first : Int) (c : SafePointer)
    (hc : SafePointer.ctor pointer forth first = .ok c)
    (hfi : in_int c.m_forth) (hbi : in_int c.m_back) :
    (c.m_forth ≥ 1 →
      c.operator_pre_inc.2 = .ok c.operator_pre_inc.1 ∧
      c.operator_pre_inc.1.operator_pre_dec = (c, .ok c) ∧
      c.operator_post_inc.2 = .ok c ∧
      c.operator_post_inc.1.operator_post_dec.1 = c ∧
      (∃ r, c.operator_post_inc.1.operator_post_dec.2 = .ok r)) ∧
    (c.m_back ≥ 1 →
      c.operator_pre_dec.2 = .ok c.operator_pre_dec.1 ∧
      c.operator_post_dec.2 = .ok c ∧
      (c.m_forth ≠ -1 →
        c.operator_pre_dec.1.operator_pre_inc = (c, .ok c) ∧
        c.operator_post_dec.1.operator_post_inc = (c, .ok c.operator_post_dec.1)) ∧
      (c.m_forth = -1 →
        c.operator_pre_dec.1.operator_pre_inc =
          (c.operator_pre_dec.1, .error .out_of_range) ∧
        c.operator_post_dec.1.operator_post_inc =
          (c.operator_post_dec.1, .error .out_of_range))) := by
  have hwf : c.WF := wf_constructors.1 pointer forth first c hc
  have hge : c.m_first ≤ c.m_pointer := by
    unfold SafePointer.ctor at hc
    by_cases hp : pointer - first < 0
    · simp [hp] at hc
    · simp [hp] at hc
      subst hc
      simp only
      omega
  obtain ⟨f, p, o, b⟩ := c
  simp only [SafePointer.WF] at hwf
  simp only at hge
  simp only [in_int, INT_MIN, INT_MAX] at hfi hbi
  have hb : p - o = b := hwf.symm
  constructor
  · intro hf
    simp only [ge_iff_le] at hf
    have h0 : ¬ f = 0 := by omega
    have h1 : ¬ o = p + 1 := by omega
    have hA : wrap_int (wrap_int (f - 1) + 1) = f := by
      unfold wrap_int
      omega
    have hB : wrap_int (wrap_int (b + 1) - 1) = b := by
      unfold wrap_int
      omega
    simp [SafePointer.operator_post_inc, SafePointer.operator_pre_inc,
      SafePointer.operator_post_dec, SafePointer.operator_pre_dec,
      SafePointer.copy_ctor, h0, h1, hb, hA, hB]
  · intro hb1
    simp only [ge_iff_le] at hb1
    have h0 : ¬ o = p := by omega
    have h2 : p - 1 - o = b - 1 := by omega
    have hF : wrap_int (b - 1) = b - 1 := by
      unfold wrap_int
      omega
    have hD : wrap_int b = b := by
      unfold wrap_int
      omega
    refine ⟨?_, ?_, ?_, ?_⟩
    · simp [SafePointer.operator_pre_dec, h0]
    · simp [SafePointer.operator_post_dec, SafePointer.operator_pre_dec,
        SafePointer.copy_ctor, h0, hb]
    · intro hm
      have hm1 : f ≠ -1 := hm
      have hE : ¬ wrap_int (f + 1) = 0 := by
        unfold wrap_int
        omega
      have hC : wrap_int (wrap_int (f + 1) - 1) = f := by
        unfold wrap_int
        omega
      simp [SafePointer.operator_post_inc, SafePointer.operator_pre_inc,
        SafePointer.operator_post_dec, SafePointer.operator_pre_dec,
        SafePointer.copy_ctor, h0, h2, hb, hE, hC, hD, hF]
    · intro hm
      simp only at hm
      subst hm
      have hE : wrap_int 0 = 0 := by
        unfold wrap_int
        omega
      simp [SafePointer.operator_post_inc, SafePointer.operator_pre_inc,
        SafePointer.operator_post_dec, SafePointer.operator_pre_dec, h0, hE]

/-- Witness of C15 on the cursor built by the constructor from
`(101, 3, 100)`, which has `m_forth = 3` and `m_back = 1`. -/
theorem C15_move_and_back_witness :
    SafePointer.ctor 101 3 100 =
      .ok { m_forth := 3, m_pointer := 101, m_first := 100, m_back := 1 } ∧
    in_int (SafePointer.m_forth
      { m_forth := 3, m_pointer := 101, m_first := 100, m_back := 1 }) ∧
    in_int (SafePointer.m_back
      { m_forth := 3, m_pointer := 101, m_first := 100, m_back := 1 }) ∧
    SafePointer.m_forth { m_forth := 3, m_pointer := 101, m_first := 100, m_back := 1 } ≥ 1 ∧
    SafePointer.m_back { m_forth := 3, m_pointer := 101, m_first := 100, m_back := 1 } ≥ 1 ∧
    SafePointer.m_forth { m_forth := 3, m_pointer := 101, m_first := 100, m_back := 1 } ≠ -1 ∧
    (SafePointer.operator_pre_inc
        { m_forth := 3, m_pointer := 101, m_first := 100, m_back := 1 }).1.operator_pre_dec =
      ({ m_forth := 3, m_pointer := 101, m_first := 100, m_back := 1 },
       .ok { m_forth := 3, m_pointer := 101, m_first := 100, m_back := 1 }) ∧
    (SafePointer.operator_pre_dec
        { m_forth := 3, m_pointer := 101, m_first := 100, m_back := 1 }).1.operator_pre_inc =
      ({ m_forth := 3, m_pointer := 101, m_first := 100, m_back := 1 },
       .ok { m_forth := 3, m_pointer := 101, m_first := 100, m_back := 1 }) :=
  ⟨by decide, by decide, by decide, by decide, by decide, by decide,
   ((C15_move_and_back 101 3 100
      { m_forth := 3, m_pointer := 101, m_first := 100, m_back := 1 }
      (by decide) (by decide) (by decide)).1 (by decide)).2.1,
   ((((C15_move_and_back 101 3 100
      { m_forth := 3, m_pointer := 101, m_first := 100, m_back := 1 }
      (by decide) (by decide) (by decide)).2 (by decide)).2.2.1) (by decide)).1⟩

/-- C17, as stated, fails: the constructor refuses `(0, 0, 1)`, whose position
lies before the origin, with `std::range_error`, not with `std::out_of_range`,
while an out-of-range array access throws `std::out_of_range`. -/
theorem C17_constructor_throws_range_error :
    SafePointer.ctor 0 0 1 = .error .range_error ∧
    SafePointer.ctor 0 0 1 ≠ .error .out_of_range ∧
    SafeArray.operator_index { m_length := 1, m_array := 0 } 1 = .error .out_of_range := by
  decide

/-- C17, amended: the three-argument constructor fails exactly when
`pointer < first`, and the exception is `std::range_error`, never
`std::out_of_range`; when `pointer >= first` it builds the cursor with the
given position, `m_forth` and origin, and `m_back == pointer - first`. -/
theorem C17_constructor (pointer forth first : Int) :
    (SafePointer.ctor pointer forth first = .error .range_error ↔ pointer < first) ∧
    SafePointer.ctor pointer forth first ≠ .error .out_of_range ∧
    (SafePointer.ctor pointer forth first =
        .ok { m_forth := forth, m_pointer := pointer, m_first := first,
              m_back := pointer - first } ↔ pointer ≥ first) := by
  unfold SafePointer.ctor
  by_cases hp : pointer - first < 0
  · have h1 : pointer < first := by omega
    have h2 : ¬ first ≤ pointer := by omega
    simp [hp, h1, h2]
  · have h1 : ¬ pointer < first := by omega
    have h2 : first ≤ pointer := by omega
    simp [hp, h1, h2]

/-- C18: each of `++`, `--`, `+= step` and `-= step`, for every integer `step`,
leaves the cursor with the origin it had before the call, and with the sum
`m_forth + m_back` it had before the call: the `int` sum in every case, and the
exact sum whenever the two new members are representable. This holds after a
successful call, and after a failed one, which changes nothing. -/
theorem C18_moves_keep_origin_and_budget (c : SafePointer) (step : Int) :
    (c.operator_pre_inc.1.m_first = c.m_first ∧
      wrap_int (c.operator_pre_inc.1.m_forth + c.operator_pre_inc.1.m_back)
        = wrap_int (c.m_forth + c.m_back)) ∧
    (c.operator_post_inc.1.m_first = c.m_first ∧
      wrap_int (c.operator_post_inc.1.m_forth + c.operator_post_inc.1.m_back)
        = wrap_int (c.m_forth + c.m_back)) ∧
    (c.operator_pre_dec.1.m_first = c.m_first ∧
      wrap_int (c.operator_pre_dec.1.m_forth + c.operator_pre_dec.1.m_back)
        = wrap_int (c.m_forth + c.m_back)) ∧
    (c.operator_post_dec.1.m_first = c.m_first ∧
      wrap_int (c.operator_post_dec.1.m_forth + c.operator_post_dec.1.m_back)
        = wrap_int (c.m_forth + c.m_back)) ∧
    ((c.operator_add_assign step).1.m_first = c.m_first ∧
      wrap_int ((c.operator_add_assign step).1.m_forth + (c.operator_add_assign step).1.m_back)
        = wrap_int (c.m_forth + c.m_back)) ∧
    ((c.operator_sub_assign step).1.m_first = c.m_first ∧
      wrap_int ((c.operator_sub_assign step).1.m_forth + (c.operator_sub_assign step).1.m_back)
        = wrap_int (c.m_forth + c.m_back)) ∧
    (in_int (c.m_forth - 1) → in_int (c.m_back + 1) →
      c.operator_pre_inc.1.m_forth + c.operator_pre_inc.1.m_back = c.m_forth + c.m_back ∧
      c.operator_post_inc.1.m_forth + c.operator_post_inc.1.m_back = c.m_forth + c.m_back) ∧
    (in_int (c.m_forth + 1) → in_int (c.m_back - 1) →
      c.operator_pre_dec.1.m_forth + c.operator_pre_dec.1.m_back = c.m_forth + c.m_back ∧
      c.operator_post_dec.1.m_forth + c.operator_post_dec.1.m_back = c.m_forth + c.m_back) ∧
    (in_int (c.m_forth - step) → in_int (c.m_back + step) →
      (c.operator_add_assign step).1.m_forth + (c.operator_add_assign step).1.m_back
        = c.m_forth + c.m_back) ∧
    (in_int (c.m_forth + step) → in_int (c.m_back - step) →
      (c.operator_sub_assign step).1.m_forth + (c.operator_sub_assign step).1.m_back
        = c.m_forth + c.m_back) := by
  unfold SafePointer.operator_post_inc SafePointer.operator_post_dec
    SafePointer.operator_pre_inc SafePointer.operator_pre_dec
    SafePointer.operator_add_assign SafePointer.operator_sub_assign
  refine ⟨?_, ?_, ?_, ?_, ?_, ?_, ?_, ?_, ?_, ?_⟩
  · by_cases h : c.m_forth = 0
    · simp [h]
    · simp only [if_neg h, true_and, wrap_int]
      omega
  · by_cases h : c.m_forth = 0
    · simp [h]
    · simp only [if_neg h, true_and, wrap_int]
      omega
  · by_cases h : c.m_first = c.m_pointer
    · simp [h]
    · simp only [if_neg h, true_and, wrap_int]
      omega
  · by_cases h : c.m_first = c.m_pointer
    · simp [h]
    · simp only [if_neg h, true_and, wrap_int]
      omega
  · by_cases h : step > c.m_forth
    · simp [h]
    · simp only [if_neg h, true_and, wrap_int]
      omega
  · by_cases h : step > c.m_back
    · simp [h]
    · simp only [if_neg h, true_and, wrap_int]
      omega
  · intro hf hb
    by_cases h : c.m_forth = 0
    · simp [h]
    · simp only [if_neg h, wrap_int_of_in_int _ hf, wrap_int_of_in_int _ hb]
      omega
  · intro hf hb
    by_cases h : c.m_first = c.m_pointer
    · simp [h]
    · simp only [if_neg h, wrap_int_of_in_int _ hf, wrap_int_of_in_int _ hb]
      omega
  · intro hf hb
    by_cases h : step > c.m_forth
    · simp [h]
    · simp only [if_neg h, wrap_int_of_in_int _ hf, wrap_int_of_in_int _ hb]
      omega
  · intro hf hb
    by_cases h : step > c.m_back
    · simp [h]
    · simp only [if_neg h, wrap_int_of_in_int _ hf, wrap_int_of_in_int _ hb]
      omega

/-- Witness of C18 on the cursor `a + 5` of an array of 8 cells at address 100,
with step 2. -/
theorem C18_moves_keep_origin_and_budget_witness :
    in_int ((3 : Int) - 1) ∧ in_int ((5 : Int) + 1) ∧
    in_int ((3 : Int) + 1) ∧ in_int ((5 : Int) - 1) ∧
    in_int ((3 : Int) - 2) ∧ in_int ((5 : Int) + 2) ∧
    in_int ((3 : Int) + 2) ∧ in_int ((5 : Int) - 2) ∧
    (SafePointer.operator_pre_inc
        { m_forth := 3, m_pointer := 105, m_first := 100, m_back := 5 }).1.m_forth
      + (SafePointer.operator_pre_inc
        { m_forth := 3, m_pointer := 105, m_first := 100, m_back := 5 }).1.m_back
      = (3 : Int) + 5 ∧
    (SafePointer.operator_pre_dec
        { m_forth := 3, m_pointer := 105, m_first := 100, m_back := 5 }).1.m_forth
      + (SafePointer.operator_pre_dec
        { m_forth := 3, m_pointer := 105, m_first := 100, m_back := 5 }).1.m_back
      = (3 : Int) + 5 ∧
    (SafePointer.operator_add_assign
        { m_forth := 3, m_pointer := 105, m_first := 100, m_back := 5 } 2).1.m_forth
      + (SafePointer.operator_add_assign
        { m_forth := 3, m_pointer := 105, m_first := 100, m_back := 5 } 2).1.m_back
      = (3 : Int) + 5 ∧
    (SafePointer.operator_sub_assign
        { m_forth := 3, m_pointer := 105, m_first := 100, m_back := 5 } 2).1.m_forth
      + (SafePointer.operator_sub_assign
        { m_forth := 3, m_pointer := 105, m_first := 100, m_back := 5 } 2).1.m_back
      = (3 : Int) + 5 :=
  ⟨by decide, by decide, by decide, by decide, by decide, by decide, by decide, by decide,
   ((C18_moves_keep_origin_and_budget
      { m_forth := 3, m_pointer := 105, m_first := 100, m_back := 5 } 2).2.2.2.2.2.2.1
      (by decide) (by decide)).1,
   ((C18_moves_keep_origin_and_budget
      { m_forth := 3, m_pointer := 105, m_first := 100, m_back := 5 } 2).2.2.2.2.2.2.2.1
      (by decide) (by decide)).1,
   (C18_moves_keep_origin_and_budget
      { m_forth := 3, m_pointer := 105, m_first := 100, m_back := 5 } 2).2.2.2.2.2.2.2.2.1
      (by decide) (by decide),
   (C18_moves_keep_origin_and_budget
      { m_forth := 3, m_pointer := 105, m_first := 100, m_back := 5 } 2).2.2.2.2.2.2.2.2.2
      (by decide) (by decide)⟩

/-- C19: for an array of length at least 2 and `0 <= step < length`, the cursor
`a + step` exists, `step` decrements in a row all succeed, and the cursor they
leave compares equal to the cursor converted from `a` and refers to the cell
`*a` refers to, so that both read the same element; one more decrement throws
`std::out_of_range` and moves nothing. -/
theorem C19_decrement_back_to_first {T : Type} (h : Heap T) (a : SafeArray) (step : Int)
    (hlen : 2 ≤ a.getLength) (h0 : 0 ≤ step) (h1 : step < a.getLength) :
    ∃ c c1 p,
      operator_add_arr_int a step = .ok c ∧
      post_dec_times step.toNat c = (c1, .ok ()) ∧
      SafePointer.conv_ctor a = .ok p ∧
      operator_eq p c1 = true ∧
      operator_eq c1 p = true ∧
      c1.operator_deref = a.operator_deref ∧
      h c1.operator_deref = h a.operator_deref ∧
      c1.operator_post_dec = (c1, .error .out_of_range) ∧
      c1.operator_pre_dec = (c1, .error .out_of_range) := by
  unfold SafeArray.getLength at hlen h1
  have hr : ¬ (step < 0 ∨ step ≥ a.m_length) := by omega
  have hl : ¬ a.m_length ≤ 1 := by omega
  have hcast : ((step.toNat : Nat) : Int) = step := Int.toNat_of_nonneg h0
  obtain ⟨forth, back, hrun⟩ := post_dec_times_eq step.toNat
    { m_forth := a.m_length - step, m_pointer := a.m_array + step,
      m_first := a.m_array, m_back := step }
    (by simp only [hcast])
  refine ⟨{ m_forth := a.m_length - step, m_pointer := a.m_array + step,
            m_first := a.m_array, m_back := step },
          { m_forth := forth, m_pointer := a.m_array,
            m_first := a.m_array, m_back := back },
          { m_forth := a.m_length - 1, m_pointer := a.m_array,
            m_first := a.m_array, m_back := 0 },
          ?_, hrun, ?_, ?_, ?_, ?_, ?_, ?_, ?_⟩
  · rw [operator_add_arr_int_eq, if_neg hr]
  · rw [conv_ctor_eq, if_neg hl]
  · simp [operator_eq]
  · simp [operator_eq]
  · simp [SafePointer.operator_deref, SafeArray.operator_deref]
  · simp [SafePointer.operator_deref, SafeArray.operator_deref]
  · simp [SafePointer.operator_post_dec, SafePointer.operator_pre_dec]
  · simp [SafePointer.operator_pre_dec]

/-- Witness of C19 on the run of `main`: an array of 8 cells at address 100,
the cursor `a + 2` and two decrements. -/
theorem C19_decrement_back_to_first_witness :
    ∃ c c1 p,
      operator_add_arr_int { m_length := 8, m_array := 100 } 2 = .ok c ∧
      post_dec_times (2 : Int).toNat c = (c1, .ok ()) ∧
      SafePointer.conv_ctor { m_length := 8, m_array := 100 } = .ok p ∧
      operator_eq p c1 = true ∧
      operator_eq c1 p = true ∧
      c1.operator_deref = SafeArray.operator_deref { m_length := 8, m_array := 100 } ∧
      (fun _ => (0 : Nat)) c1.operator_deref =
        (fun _ => (0 : Nat)) (SafeArray.operator_deref { m_length := 8, m_array := 100 }) ∧
      c1.operator_post_dec = (c1, .error .out_of_range) ∧
      c1.operator_pre_dec = (c1, .error .out_of_range) :=
  C19_decrement_back_to_first (fun _ => (0 : Nat)) { m_length := 8, m_array := 100 } 2
    (by decide) (by decide) (by decide)

end SafeArrayModel
